import Mathlib

/-!
Shallow embedding of `src/intruder_alert.py` (HC-SR04 intruder alert).

The script's pure control flow is translated into executable Lean
functions.  External effects (presence of CLI tools, success of a
subprocess run, existence of files, the HTTP response of the webhook)
are supplied by oracle functions bundled in environment structures, and
the functions return explicit traces of the effects they perform
(subprocess invocations, webhook POST attempts, log events), so that the
spec's observational claims can be stated about those traces.

Times and distances are modelled as rationals; the claims under study
are about control flow and comparisons, not floating-point rounding.
-/

namespace IntruderAlert

/-- Whether the characters of `pat` occur at the front of `s`. -/
def matchesAt : List Char → List Char → Bool
  | [], _ => true
  | _ :: _, [] => false
  | p :: ps, c :: cs => p == c && matchesAt ps cs

/-- Whether the characters of `pat` occur contiguously somewhere
in `s` (Python's `pat in s` on strings). -/
def containsSub (pat : List Char) : List Char → Bool
  | [] => matchesAt pat []
  | c :: cs => matchesAt pat (c :: cs) || containsSub pat cs

/-- Python's substring test `pat in s`. -/
def strContainsSub (s pat : String) : Bool :=
  containsSub pat.data s.data

/-- One `subprocess.run` invocation, recording the arguments the script
passes.  `_run_quiet` passes `check=True` and never passes a `timeout`
argument, so the `timeout` field of every call it makes is `none`
(Python's `timeout=None`, i.e. wait without bound). -/
structure RunCall where
  cmd : List String
  check : Bool
  timeout : Option ℚ
deriving Repr, DecidableEq

/-- OS oracle seen by `capture_image`:
`which tool` — `shutil.which(tool)` finds the executable;
`runSucceeds cmd` — `subprocess.run(cmd, check=True, ...)` raises no exception;
`fileAfter cmd` — `os.path.isfile(path)` holds right after running `cmd`. -/
structure CaptureEnv where
  which : String → Bool
  runSucceeds : List String → Bool
  fileAfter : List String → Bool

/-- Temporary photo location `"/tmp/intruder.jpg"` (line 48). -/
def PHOTO_PATH : String := "/tmp/intruder.jpg"

/-- Argument list of the `rpicam-still` backend (lines 112-119). -/
def rpicamCmd (path : String) : List String :=
  ["rpicam-still", "-n", "--zsl", "-t", "500", "--immediate",
   "--width", "1280", "--height", "720", "-o", path]

/-- Argument list of the `libcamera-still` backend (lines 124-129). -/
def libcameraCmd (path : String) : List String :=
  ["libcamera-still", "-n", "-t", "500", "--immediate",
   "--width", "1280", "--height", "720", "-o", path]

/-- Argument list of the `fswebcam` backend (line 134). -/
def fswebcamCmd (path : String) : List String :=
  ["fswebcam", "-r", "1280x720", "--no-banner", path]

/-- Translation of `_run_quiet(cmd)` (lines 87-93): `subprocess.run(cmd, check=True,
stdout=DEVNULL, stderr=DEVNULL)` inside `try/except`, returning `True` on a
clean exit; note the absence of a `timeout` argument.  Returns the result
together with the record of the invocation. -/
def run_quiet (env : CaptureEnv) (cmd : List String) : Bool × RunCall :=
  (env.runSucceeds cmd, { cmd := cmd, check := true, timeout := none })

/-- Fall-through to the `fswebcam` block of `capture_image` (lines 133-137):
`if shutil.which("fswebcam"): if _run_quiet([...]): return os.path.isfile(path)`,
then `return False`. -/
def capture_stage3 (env : CaptureEnv) (path : String) (trace : List RunCall) :
    Bool × List RunCall :=
  if env.which "fswebcam" then
    let r := run_quiet env (fswebcamCmd path)
    if r.1 then (env.fileAfter (fswebcamCmd path), trace ++ [r.2])
    else (false, trace ++ [r.2])
  else (false, trace)

/-- Fall-through to the `libcamera-still` block of `capture_image`
(lines 123-130): on a clean exit the function returns
`os.path.isfile(path)` immediately; only an unclean exit or an absent tool
falls through to the next block. -/
def capture_stage2 (env : CaptureEnv) (path : String) (trace : List RunCall) :
    Bool × List RunCall :=
  if env.which "libcamera-still" then
    let r := run_quiet env (libcameraCmd path)
    if r.1 then (env.fileAfter (libcameraCmd path), trace ++ [r.2])
    else capture_stage3 env path (trace ++ [r.2])
  else capture_stage3 env path trace

/-- Translation of `capture_image(path)` (lines 95-137).  The stale-file removal
(lines 104-108) only touches the filesystem, which the oracle `fileAfter`
observes after each backend run.  Each backend block is
`if shutil.which(tool): if _run_quiet(cmd): return os.path.isfile(path)`:
a clean exit returns the file-existence check directly (no fall-through),
an unclean exit or absent tool falls to the next block, and the final
statement returns `False`.  The second component is the trace of
`subprocess.run` invocations, in order. -/
def capture_image (env : CaptureEnv) (path : String) : Bool × List RunCall :=
  if env.which "rpicam-still" then
    let r := run_quiet env (rpicamCmd path)
    if r.1 then (env.fileAfter (rpicamCmd path), [r.2])
    else capture_stage2 env path [r.2]
  else capture_stage2 env path []

/-- Kind of webhook POST: multipart (file attached) or plain JSON. -/
inductive PostKind
  | multipart
  | json
deriving Repr, DecidableEq

/-- One `requests.post` call to the webhook, with the bounded `timeout=15`
the script passes (lines 157-165) and the distance that went into the
message content. -/
structure PostCall where
  url : String
  kind : PostKind
  content_dist : ℚ
  timeout : ℚ
deriving Repr, DecidableEq

/-- Outcome of a `requests.post` call: a response with a status code and
body text, or a raised exception (timeout, transport error, ...). -/
inductive PostOutcome
  | status (code : ℤ) (text : String)
  | exn (msg : String)

/-- The log events the script emits on the paths under study. -/
inductive LogEvent
  | triggerSend (dist_cm cooldown_s : ℚ)
  | triggerCooldown (dist_cm cooldown_left : ℚ)
  | clear
  | captureFailed
  | noWebhook
  | discordSent
  | discordFailed (code : ℤ)
  | discordError (msg : String)
deriving Repr, DecidableEq

/-- The placeholder webhook value (line 51). -/
def WEBHOOK_PLACEHOLDER : String := "PUT_A_NEW_DISCORD_WEBHOOK_HERE"

/-- The guard of `send_discord` (line 146):
`if not WEBHOOK_URL or "PUT_A_NEW_DISCORD_WEBHOOK_HERE" in WEBHOOK_URL`. -/
def webhookMissing (url : String) : Bool :=
  url == "" || strContainsSub url WEBHOOK_PLACEHOLDER

/-- Python truthiness of `image_path and os.path.isfile(image_path)`
(line 154): `None` and the empty string are falsy. -/
def discordAttach (isfile : String → Bool) : Option String → Bool
  | some p => p != "" && isfile p
  | none => false

/-- The single `requests.post` call `send_discord` makes once past the
webhook guard: multipart when a file is attached (lines 156-162), JSON
otherwise (line 165); `timeout=15` in both. -/
def discordCall (url : String) (isfile : String → Bool) (d : ℚ)
    (image_path : Option String) : PostCall :=
  { url := url
    kind := if discordAttach isfile image_path then .multipart else .json
    content_dist := d
    timeout := 15 }

/-- Trace of one `send_discord` call: the POST attempts made and the log
events emitted. -/
structure SendTrace where
  posts : List PostCall
  logs : List LogEvent
deriving Repr, DecidableEq

/-- Translation of `send_discord(distance_cm, image_path)` (lines 141-172).  The body of
the `try` is a single POST; the `except Exception` handler catches any
raised outcome (`PostOutcome.exn`), so the function returns a trace on
every input — it never raises and never retries. -/
def send_discord (url : String) (isfile : String → Bool)
    (post : PostCall → PostOutcome) (distance_cm : ℚ)
    (image_path : Option String) : SendTrace :=
  if webhookMissing url then
    { posts := [], logs := [.noWebhook] }
  else
    let call := discordCall url isfile distance_cm image_path
    match post call with
    | .status code _text =>
        if 200 ≤ code ∧ code < 300 then
          { posts := [call], logs := [.discordSent] }
        else
          { posts := [call], logs := [.discordFailed code] }
    | .exn m => { posts := [call], logs := [.discordError m] }

/-- The configuration the main loop reads (lines 36-51). -/
structure Config where
  threshold_cm : ℚ
  cooldown : ℚ
  send_photo : Bool
  webhook_url : String

/-- The per-session mutable state of the loop (lines 201-202). -/
structure EngineState where
  last_sent : ℚ
  was_in_range : Bool
deriving Repr, DecidableEq

/-- Session-initial state: `last_sent = 0.0; was_in_range = False` (lines 201-202). -/
def initState : EngineState := { last_sent := 0, was_in_range := false }

/-- Oracles for one loop iteration: capture environment, `os.path.isfile`
as seen by `send_discord` at send time, and the webhook transport. -/
structure World where
  capture : CaptureEnv
  isfile : String → Bool
  post : PostCall → PostOutcome

/-- Observable outcome of one loop iteration. -/
structure TickResult where
  state : EngineState
  logs : List LogEvent
  captureAttempts : ℕ
  captureCalls : List RunCall
  sendCalls : List (ℚ × Option String)
  posts : List PostCall
deriving Repr, DecidableEq

/-- One iteration of the `while True` body (lines 204-244), given the
sampled distance in cm and the two clock reads the body makes:
`now = time.time()` at line 210 and the second `time.time()` at line 230
stored into `last_sent` after the capture and the send attempt.
`captureAttempts` counts calls of `capture_image`, `sendCalls` records the
arguments of each `send_discord` call, `posts` the webhook POSTs. -/
def tick (cfg : Config) (w : World) (s : EngineState)
    (dist_cm now now2 : ℚ) : TickResult :=
  let cooldown_left : ℚ := max 0 (cfg.cooldown - (now - s.last_sent))
  if dist_cm ≤ cfg.threshold_cm then
    if cooldown_left ≤ 0 then
      let cap : Bool × List RunCall :=
        if cfg.send_photo then capture_image w.capture PHOTO_PATH
        else (false, [])
      let img : Option String :=
        if cfg.send_photo && cap.1 then some PHOTO_PATH else none
      let capLog : List LogEvent :=
        if cfg.send_photo && !cap.1 then [.captureFailed] else []
      let sd := send_discord cfg.webhook_url w.isfile w.post dist_cm img
      { state := { last_sent := now2, was_in_range := true }
        logs := [.triggerSend dist_cm cfg.cooldown] ++ capLog ++ sd.logs
        captureAttempts := if cfg.send_photo then 1 else 0
        captureCalls := cap.2
        sendCalls := [(dist_cm, img)]
        posts := sd.posts }
    else
      { state := { last_sent := s.last_sent, was_in_range := true }
        logs := [.triggerCooldown dist_cm cooldown_left]
        captureAttempts := 0, captureCalls := [], sendCalls := [], posts := [] }
  else
    if s.was_in_range then
      { state := { last_sent := s.last_sent, was_in_range := false }
        logs := [.clear]
        captureAttempts := 0, captureCalls := [], sendCalls := [], posts := [] }
    else
      { state := s, logs := []
        captureAttempts := 0, captureCalls := [], sendCalls := [], posts := [] }

/-- Iterate `tick` over a list of samples `(dist_cm, now, now2)`,
returning the final state and the concatenated log. -/
def runTicks (cfg : Config) (w : World) :
    EngineState → List (ℚ × ℚ × ℚ) → EngineState × List LogEvent
  | s, [] => (s, [])
  | s, (d, n, m) :: rest =>
      let r := tick cfg w s d n m
      let tail := runTicks cfg w r.state rest
      (tail.1, r.logs ++ tail.2)

/-- A `RunCall` as `_run_quiet` builds it. -/
def mkRun (cmd : List String) : RunCall :=
  { cmd := cmd, check := true, timeout := none }

/-- The capture result as the amended fallback-chain claim describes it:
the chain advances past a backend only when the tool is absent or its
command exits uncleanly; at the first backend whose command exits cleanly
the chain stops and the overall result is whether the output file exists
(so a clean exit with an absent file is an overall failure, with no
further backend tried). -/
def captureChainResultSpec (env : CaptureEnv) (path : String) : Bool :=
  if env.which "rpicam-still" && env.runSucceeds (rpicamCmd path) then
    env.fileAfter (rpicamCmd path)
  else if env.which "libcamera-still" && env.runSucceeds (libcameraCmd path) then
    env.fileAfter (libcameraCmd path)
  else if env.which "fswebcam" && env.runSucceeds (fswebcamCmd path) then
    env.fileAfter (fswebcamCmd path)
  else false

/-- Capture environment in which no CLI tool is installed. -/
def env0 : CaptureEnv := ⟨fun _ => false, fun _ => false, fun _ => false⟩

/-- Webhook transport that always answers 204 No Content. -/
def post204 : PostCall → PostOutcome := fun _ => .status 204 ""

/-- World with no camera tools, no files, and a webhook answering 204. -/
def w0 : World := ⟨env0, fun _ => false, post204⟩

/-- Default-like configuration with a valid webhook URL and photos off. -/
def cfgValid : Config := ⟨35, 30, false, "https://example.test/hook"⟩

/-- Default-like configuration still carrying the placeholder webhook. -/
def cfgPlaceholder : Config := ⟨35, 30, false, WEBHOOK_PLACEHOLDER⟩

/-- Capture environment in which every tool is installed and every command
exits cleanly, but only the `libcamera-still` run leaves the output file
behind (the `rpicam-still` run exits cleanly without producing a file). -/
def cexCaptureEnv : CaptureEnv :=
  { which := fun _ => true
    runSucceeds := fun _ => true
    fileAfter := fun cmd => cmd.head? == some "libcamera-still" }

end IntruderAlert

namespace IntruderAlert

/-- Characterization of an out-of-range iteration (lines 238-242): the
rest of the state is untouched, `was_in_range` ends up false, CLEAR is
logged exactly on the true-to-false edge, and no capture or send happens. -/
theorem tick_out_char (cfg : Config) (w : World) (s : EngineState)
    (d n m : ℚ) (h : cfg.threshold_cm < d) :
    tick cfg w s d n m =
      { state := { last_sent := s.last_sent, was_in_range := false }
        logs := if s.was_in_range then [LogEvent.clear] else []
        captureAttempts := 0, captureCalls := [], sendCalls := [], posts := [] } := by
  obtain ⟨ls, wir⟩ := s
  unfold tick
  cases hwir : wir <;> simp [not_le.mpr h, hwir]

/-- C2: an in-range sample during cooldown logs TRIGGER-cooldown and does
nothing else: no capture, no send, no POST, state only records
`was_in_range := true`. -/
theorem c2_cooldown_branch_frame (cfg : Config) (w : World) (s : EngineState)
    (d now now2 : ℚ) (hin : d ≤ cfg.threshold_cm)
    (hcool : 0 < max 0 (cfg.cooldown - (now - s.last_sent))) :
    tick cfg w s d now now2 =
      { state := { last_sent := s.last_sent, was_in_range := true }
        logs := [LogEvent.triggerCooldown d (max 0 (cfg.cooldown - (now - s.last_sent)))]
        captureAttempts := 0, captureCalls := [], sendCalls := [], posts := [] } := by
  unfold tick
  simp [hin, not_le.mpr hcool]

/-- Witness for C2 at a concrete cooling tick: last send at t=100,
sample 10 cm at t=105 with a 30 s cooldown is gated. -/
theorem c2_cooldown_branch_frame_witness :
    tick cfgValid w0 { last_sent := 100, was_in_range := false } 10 105 105 =
      { state := { last_sent := 100, was_in_range := true }
        logs := [LogEvent.triggerCooldown 10
          (max 0 (cfgValid.cooldown - (105 - (100:ℚ))))]
        captureAttempts := 0, captureCalls := [], sendCalls := [], posts := [] } :=
  c2_cooldown_branch_frame cfgValid w0 { last_sent := 100, was_in_range := false }
    10 105 105 (by norm_num [cfgValid])
    (by rw [show cfgValid.cooldown = 30 from rfl]; norm_num [max_def])

/-- C3: an out-of-range sample triggers no capture, no send and no POST,
and leaves `last_sent` unchanged; the only state field that can change is
`was_in_range`, which ends up false. -/
theorem c3_out_of_range_frame (cfg : Config) (w : World) (s : EngineState)
    (d now now2 : ℚ) (hout : cfg.threshold_cm < d) :
    (tick cfg w s d now now2).state.last_sent = s.last_sent ∧
    (tick cfg w s d now now2).state.was_in_range = false ∧
    (tick cfg w s d now now2).captureAttempts = 0 ∧
    (tick cfg w s d now now2).sendCalls = [] ∧
    (tick cfg w s d now now2).posts = [] := by
  rw [tick_out_char cfg w s d now now2 hout]
  exact ⟨rfl, rfl, rfl, rfl, rfl⟩

/-- Witness for C3 at a concrete out-of-range tick from an in-range state. -/
theorem c3_out_of_range_frame_witness :
    (tick cfgValid w0 { last_sent := 50, was_in_range := true } 100 60 60).state.last_sent = 50 ∧
    (tick cfgValid w0 { last_sent := 50, was_in_range := true } 100 60 60).state.was_in_range = false ∧
    (tick cfgValid w0 { last_sent := 50, was_in_range := true } 100 60 60).captureAttempts = 0 ∧
    (tick cfgValid w0 { last_sent := 50, was_in_range := true } 100 60 60).sendCalls = [] ∧
    (tick cfgValid w0 { last_sent := 50, was_in_range := true } 100 60 60).posts = [] :=
  c3_out_of_range_frame cfgValid w0 { last_sent := 50, was_in_range := true }
    100 60 60 (by norm_num [cfgValid])

/-- C1 (amended): an in-range sample with zero cooldown left invokes
`send_discord` exactly once, and `last_sent` is set to the second clock
read `now2` — the `time.time()` of line 230, taken after the capture and
the send attempt — whatever the webhook transport did. -/
theorem c1_send_branch_once (cfg : Config) (w : World) (s : EngineState)
    (d now now2 : ℚ) (hin : d ≤ cfg.threshold_cm)
    (hcool : max 0 (cfg.cooldown - (now - s.last_sent)) = 0) :
    (tick cfg w s d now now2).sendCalls.length = 1 ∧
    (tick cfg w s d now now2).state.last_sent = now2 ∧
    (tick cfg w s d now now2).state.was_in_range = true := by
  unfold tick
  simp [hin, hcool]

/-- Witness for the amended C1 at a concrete sending tick. -/
theorem c1_send_branch_once_witness :
    (tick cfgValid w0 initState 10 100 107).sendCalls.length = 1 ∧
    (tick cfgValid w0 initState 10 100 107).state.last_sent = 107 ∧
    (tick cfgValid w0 initState 10 100 107).state.was_in_range = true :=
  c1_send_branch_once cfgValid w0 initState 10 100 107
    (by norm_num [cfgValid])
    (by rw [show cfgValid.cooldown = 30 from rfl,
            show initState.last_sent = 0 from rfl]
        norm_num [max_def])

/-- Counterexample to C1 as stated: at a tick sampled at `now = 100`
whose capture and send attempt finish at `now2 = 107`, the code stores
107 — the value of the second `time.time()` call at line 230 — into
`last_sent`, not the tick time 100, even though exactly one send call
is made. -/
theorem c1_last_sent_not_tick_time_cex :
    (tick cfgValid w0 initState 10 100 107).sendCalls.length = 1 ∧
    (tick cfgValid w0 initState 10 100 107).state.last_sent ≠ 100 := by
  have hw : webhookMissing cfgValid.webhook_url = false := by decide
  constructor <;>
    · simp [tick, send_discord, hw, cfgValid, initState, max_def, w0, post204]
      norm_num

/-- C6 (amended): `last_sent` is updated — namely to the post-send clock
read `now2` — exactly when the iteration takes the sending branch, i.e.
exactly when `send_discord` is invoked; otherwise it is unchanged.  (That
an HTTP POST actually happens inside `send_discord` is a separate,
weaker, condition: the webhook guard can skip the POST while `last_sent`
is still updated.) -/
theorem c6_last_sent_iff_send_invoked (cfg : Config) (w : World)
    (s : EngineState) (d now now2 : ℚ) :
    (tick cfg w s d now now2).state.last_sent =
      (if d ≤ cfg.threshold_cm ∧ max 0 (cfg.cooldown - (now - s.last_sent)) ≤ 0
        then now2 else s.last_sent) ∧
    (tick cfg w s d now now2).sendCalls.length =
      (if d ≤ cfg.threshold_cm ∧ max 0 (cfg.cooldown - (now - s.last_sent)) ≤ 0
        then 1 else 0) := by
  unfold tick
  by_cases h1 : d ≤ cfg.threshold_cm
  · by_cases h2 : max 0 (cfg.cooldown - (now - s.last_sent)) ≤ 0
    · simp [h1, h2]
    · simp [h1, h2]
  · by_cases h3 : s.was_in_range = true <;> simp [h1, h3]

/-- Counterexample to C6 as stated: with the placeholder webhook still
configured, an in-range, off-cooldown tick makes no POST at all (the
attempt is skipped with a configuration-error log), yet `last_sent` is
still updated from 0 to 101 by line 230. -/
theorem c6_no_webhook_still_updates_cex :
    (tick cfgPlaceholder w0 initState 10 100 101).posts = [] ∧
    LogEvent.noWebhook ∈ (tick cfgPlaceholder w0 initState 10 100 101).logs ∧
    (tick cfgPlaceholder w0 initState 10 100 101).state.last_sent = 101 ∧
    (tick cfgPlaceholder w0 initState 10 100 101).state.last_sent ≠ initState.last_sent := by
  have hw : webhookMissing WEBHOOK_PLACEHOLDER = true := by decide
  refine ⟨?_, ?_, ?_, ?_⟩ <;>
    · simp [tick, send_discord, hw, cfgPlaceholder, initState, max_def, w0, post204]
      norm_num

/-- C7 (amended): with the session-initial state (`last_sent = 0.0`,
line 201), `cooldown_left = max(0, cooldown - now)`, which is 0 for every
tick time `now` at or past the configured cooldown — epoch timestamps
always are — and such a first in-range sample takes the sending branch. -/
theorem c7_first_send_when_now_past_cooldown (cfg : Config) (w : World)
    (d now now2 : ℚ) (hnow : cfg.cooldown ≤ now) (hin : d ≤ cfg.threshold_cm) :
    max 0 (cfg.cooldown - (now - initState.last_sent)) = 0 ∧
    (tick cfg w initState d now now2).sendCalls.length = 1 := by
  have hz : max 0 (cfg.cooldown - (now - initState.last_sent)) = 0 := by
    have : cfg.cooldown - (now - initState.last_sent) ≤ 0 := by
      simp only [initState, sub_zero]
      linarith
    exact max_eq_left this
  refine ⟨hz, ?_⟩
  unfold tick
  simp [hin, hz]

/-- Witness for the amended C7: first sample of the session at epoch-like
time 100 with a 30 s cooldown sends immediately. -/
theorem c7_first_send_when_now_past_cooldown_witness :
    max 0 (cfgValid.cooldown - (100 - initState.last_sent)) = 0 ∧
    (tick cfgValid w0 initState 10 100 107).sendCalls.length = 1 :=
  c7_first_send_when_now_past_cooldown cfgValid w0 10 100 107
    (by norm_num [cfgValid]) (by norm_num [cfgValid])

/-- Counterexample to C7 as stated: the code initialises `last_sent` to
0.0, not minus infinity, so at tick time `now = 1` (positive) with the
default 30 s cooldown the first in-range sample finds
`cooldown_left = 29`, lands in the cooldown branch, and does not send. -/
theorem c7_early_session_cooldown_cex :
    max 0 (cfgValid.cooldown - (1 - initState.last_sent)) = 29 ∧
    (tick cfgValid w0 initState 10 1 1).sendCalls = [] ∧
    (tick cfgValid w0 initState 10 1 1).logs = [LogEvent.triggerCooldown 10 29] := by
  have h29 : max 0 (cfgValid.cooldown - (1 - initState.last_sent)) = 29 := by
    rw [show cfgValid.cooldown = 30 from rfl, show initState.last_sent = 0 from rfl]
    norm_num [max_def]
  refine ⟨h29, ?_, ?_⟩ <;>
    · simp [tick, cfgValid, initState, max_def]
      norm_num

/-- Helper for the CLEAR claim: starting from a state already out of the
zone (`was_in_range = false`), a run of out-of-range samples emits no
CLEAR at all and ends still out of the zone. -/
theorem runTicks_out_quiet (cfg : Config) (w : World)
    (samples : List (ℚ × ℚ × ℚ))
    (hout : ∀ x ∈ samples, cfg.threshold_cm < x.1) (s : EngineState)
    (hs : s.was_in_range = false) :
    (runTicks cfg w s samples).2.count LogEvent.clear = 0 ∧
    (runTicks cfg w s samples).1.was_in_range = false := by
  induction samples generalizing s with
  | nil => simp [runTicks, hs]
  | cons x rest ih =>
      obtain ⟨d, n, m⟩ := x
      have hd : cfg.threshold_cm < d := hout _ (List.mem_cons_self _ _)
      have ht := tick_out_char cfg w s d n m hd
      have hrest := ih (fun y hy => hout y (List.mem_cons_of_mem _ hy))
        { last_sent := s.last_sent, was_in_range := false } rfl
      simp only [runTicks, ht, hs, if_false, Bool.false_eq_true,
        List.count_append, List.nil_append]
      exact ⟨hrest.1, hrest.2⟩

/-- C4: over any nonempty run of consecutive out-of-range samples, CLEAR
is emitted exactly once when the run was entered from in-range
(`was_in_range = true`) and never otherwise, and the state ends with
`was_in_range = false` — so no further CLEAR can appear while the
excursion continues. -/
theorem c4_clear_once_per_excursion (cfg : Config) (w : World)
    (s : EngineState) (samples : List (ℚ × ℚ × ℚ)) (hne : samples ≠ [])
    (hout : ∀ x ∈ samples, cfg.threshold_cm < x.1) :
    (runTicks cfg w s samples).2.count LogEvent.clear
      = (if s.was_in_range then 1 else 0) ∧
    (runTicks cfg w s samples).1.was_in_range = false := by
  obtain ⟨⟨d, n, m⟩, rest, rfl⟩ : ∃ x rest, samples = x :: rest := by
    cases samples with
    | nil => exact absurd rfl hne
    | cons a l => exact ⟨a, l, rfl⟩
  have hd : cfg.threshold_cm < d := hout _ (List.mem_cons_self _ _)
  have ht := tick_out_char cfg w s d n m hd
  have hrest := runTicks_out_quiet cfg w rest
    (fun y hy => hout y (List.mem_cons_of_mem _ hy))
    { last_sent := s.last_sent, was_in_range := false } rfl
  cases hwir : s.was_in_range <;>
    (simp only [runTicks, ht, hwir, if_true, if_false, List.count_append,
      List.nil_append, hrest.1, hrest.2, List.count_singleton, ite_true,
      ite_false, and_true, Bool.false_eq_true, Bool.true_eq_false]
     try simp)

/-- Witness for C4: entering from in-range, two consecutive out-of-range
samples produce exactly one CLEAR in total. -/
theorem c4_clear_once_per_excursion_witness :
    (runTicks cfgValid w0 { last_sent := 0, was_in_range := true }
        [(100, 1, 1), (120, 2, 2)]).2.count LogEvent.clear = 1 ∧
    (runTicks cfgValid w0 { last_sent := 0, was_in_range := true }
        [(100, 1, 1), (120, 2, 2)]).1.was_in_range = false := by
  have h := c4_clear_once_per_excursion cfgValid w0
    { last_sent := 0, was_in_range := true } [(100, 1, 1), (120, 2, 2)]
    (by simp)
    (by
      intro x hx
      simp only [List.mem_cons, List.not_mem_nil, or_false] at hx
      rcases hx with rfl | rfl <;> norm_num [cfgValid])
  simpa using h

/-- C5 (amended): `capture_image` tries the backends in the fixed order
rpicam-still, libcamera-still, fswebcam — the invoked commands always form
an in-order sublist of that chain — advancing past a backend only when its
tool is absent or its command exits uncleanly; at the first backend whose
command exits cleanly it stops and returns whether the output file exists,
so a clean exit with an absent output file yields overall failure without
trying any later backend. -/
theorem c5_chain_characterization (env : CaptureEnv) (path : String) :
    (capture_image env path).1 = captureChainResultSpec env path ∧
    ((capture_image env path).2.map RunCall.cmd).Sublist
      [rpicamCmd path, libcameraCmd path, fswebcamCmd path] := by
  constructor
  · unfold capture_image capture_stage2 capture_stage3
      captureChainResultSpec run_quiet
    cases h1 : env.which "rpicam-still" <;>
    cases h2 : env.runSucceeds (rpicamCmd path) <;>
    cases h3 : env.which "libcamera-still" <;>
    cases h4 : env.runSucceeds (libcameraCmd path) <;>
    cases h5 : env.which "fswebcam" <;>
    cases h6 : env.runSucceeds (fswebcamCmd path) <;>
    simp [h1, h2, h3, h4, h5, h6]
  · unfold capture_image capture_stage2 capture_stage3 run_quiet
    cases h1 : env.which "rpicam-still" <;>
    cases h2 : env.runSucceeds (rpicamCmd path) <;>
    cases h3 : env.which "libcamera-still" <;>
    cases h4 : env.runSucceeds (libcameraCmd path) <;>
    cases h5 : env.which "fswebcam" <;>
    cases h6 : env.runSucceeds (fswebcamCmd path) <;>
    simp [h1, h2, h3, h4, h5, h6]

/-- Counterexample to C5 as stated: with every tool installed, every
command exiting cleanly, and only the libcamera-still run producing the
output file, `capture_image` runs rpicam-still, sees a clean exit with no
file, and returns overall failure after that single invocation — it does
not proceed to libcamera-still, which was present and would have
succeeded. -/
theorem c5_no_fallthrough_cex :
    capture_image cexCaptureEnv PHOTO_PATH =
      (false, [mkRun (rpicamCmd PHOTO_PATH)]) ∧
    cexCaptureEnv.which "libcamera-still" = true ∧
    cexCaptureEnv.runSucceeds (libcameraCmd PHOTO_PATH) = true ∧
    cexCaptureEnv.fileAfter (libcameraCmd PHOTO_PATH) = true := by
  refine ⟨?_, rfl, rfl, by decide⟩
  decide

/-- C8: every `subprocess.run` invocation `capture_image` performs has
`timeout = none` — `_run_quiet` passes no `timeout` argument, so each
backend command is waited on without bound (contrast the webhook POST,
which gets `timeout=15`). -/
theorem c8_capture_runs_without_timeout (env : CaptureEnv) (path : String) :
    ((capture_image env path).2.all fun c => c.timeout.isNone) = true := by
  unfold capture_image capture_stage2 capture_stage3 run_quiet
  cases h1 : env.which "rpicam-still" <;>
  cases h2 : env.runSucceeds (rpicamCmd path) <;>
  cases h3 : env.which "libcamera-still" <;>
  cases h4 : env.runSucceeds (libcameraCmd path) <;>
  cases h5 : env.which "fswebcam" <;>
  cases h6 : env.runSucceeds (fswebcamCmd path) <;>
  simp [h1, h2, h3, h4, h5, h6]

/-- C9: `send_discord` is a total function of the transport outcome — the
`try/except Exception` means a raised POST (`PostOutcome.exn`) is caught,
not propagated — it performs at most one POST (never a retry), and its
log is exactly one line determined by the outcome: configuration error
when the webhook guard fires, success on 2xx, a failure line carrying the
status code on non-2xx, and an exception line carrying the message when
the transport raised. -/
theorem c9_send_discord_total_no_retry (url : String)
    (isfile : String → Bool) (post : PostCall → PostOutcome)
    (d : ℚ) (img : Option String) :
    (send_discord url isfile post d img).posts.length ≤ 1 ∧
    (send_discord url isfile post d img).logs =
      (if webhookMissing url then [LogEvent.noWebhook]
       else
        match post (discordCall url isfile d img) with
        | .status code _text =>
            if 200 ≤ code ∧ code < 300 then [LogEvent.discordSent]
            else [LogEvent.discordFailed code]
        | .exn m => [LogEvent.discordError m]) := by
  unfold send_discord
  by_cases hw : webhookMissing url = true
  · simp [hw]
  · have hw2 : webhookMissing url = false := by
      cases h : webhookMissing url
      · rfl
      · exact absurd h hw
    cases hpost : post (discordCall url isfile d img) with
    | status code text =>
        by_cases hcode : 200 ≤ code ∧ code < 300 <;>
          simp [hw2, hpost, hcode]
    | exn m => simp [hw2, hpost]

/-- C10: past the webhook guard, exactly one POST is made, and it is
multipart precisely when `image_path` is a non-`None` path at which a
regular file exists at send time (the hypothesis that no regular file
exists at the empty path reflects `os.path.isfile("")` being false);
in every other case the POST is the plain-JSON kind. -/
theorem c10_attachment_iff_file (url : String) (isfile : String → Bool)
    (post : PostCall → PostOutcome) (d : ℚ) (img : Option String)
    (hw : webhookMissing url = false) (h0 : isfile "" = false) :
    (send_discord url isfile post d img).posts = [discordCall url isfile d img] ∧
    ((discordCall url isfile d img).kind = PostKind.multipart ↔
      ∃ p, img = some p ∧ isfile p = true) ∧
    ((discordCall url isfile d img).kind ≠ PostKind.multipart →
      (discordCall url isfile d img).kind = PostKind.json) := by
  refine ⟨?_, ?_, ?_⟩
  · unfold send_discord
    cases hpost : post (discordCall url isfile d img) with
    | status code text =>
        by_cases hcode : 200 ≤ code ∧ code < 300 <;> simp [hw, hpost, hcode]
    | exn m => simp [hw, hpost]
  · unfold discordCall discordAttach
    cases img with
    | none => simp
    | some p =>
        by_cases hp : p = ""
        · subst hp
          simp [h0]
        · simp [hp]
  · unfold discordCall
    by_cases ha : discordAttach isfile img = true <;> simp [ha]

/-- Witness for C10: with a valid webhook, a captured photo at
`PHOTO_PATH` that exists at send time, the POST is multipart. -/
theorem c10_attachment_iff_file_witness :
    (send_discord "https://example.test/hook" (fun p => p == PHOTO_PATH)
        post204 10 (some PHOTO_PATH)).posts =
      [discordCall "https://example.test/hook" (fun p => p == PHOTO_PATH)
        10 (some PHOTO_PATH)] ∧
    ((discordCall "https://example.test/hook" (fun p => p == PHOTO_PATH)
        10 (some PHOTO_PATH)).kind = PostKind.multipart ↔
      ∃ p, (some PHOTO_PATH : Option String) = some p ∧ (p == PHOTO_PATH) = true) ∧
    ((discordCall "https://example.test/hook" (fun p => p == PHOTO_PATH)
        10 (some PHOTO_PATH)).kind ≠ PostKind.multipart →
      (discordCall "https://example.test/hook" (fun p => p == PHOTO_PATH)
        10 (some PHOTO_PATH)).kind = PostKind.json) :=
  c10_attachment_iff_file "https://example.test/hook"
    (fun p => p == PHOTO_PATH) post204 10 (some PHOTO_PATH)
    (by decide) (by decide)

end IntruderAlert
